import Mathlib

/-!
Shallow embedding of the `Mysqlqb` Go query-builder (src/main.go).

The Go `QueryBuilder` struct becomes a Lean structure; each Go method that
mutates the receiver through a pointer becomes a function returning the
updated structure.  Bind values (Go `interface{}`) are modelled by the
`Value` inductive; Go's `strings.Join` becomes `strJoin`.  Terminal
operations that hand a finished SQL string and its parameters to the
database collaborator are modelled as functions returning the pair that
would be sent (and, where relevant, the receiver state after the call).
-/

/-- Bind values: the Go code stores `interface{}` parameters.  The claims
only exercise integers and strings; `nil` models Go's zero-value interface
(produced by a map lookup miss in `BulkInsert`). -/
inductive Value where
  | nil
  | int (n : Int)
  | str (s : String)
deriving DecidableEq

/-- Go's `strings.Join(elems, sep)`. -/
def strJoin (sep : String) : List String → String
  | [] => ""
  | [x] => x
  | x :: xs => x ++ sep ++ strJoin sep xs

/-- Number of `?` placeholder characters in a string. -/
def countQ (s : String) : Nat := s.data.count '?'

/-- The `QueryBuilder` struct of src/main.go.  The Go field `where` is a
Lean keyword and is rendered here as `whereConds`; all other field names
are kept. -/
structure QueryBuilder where
  table : String
  columns : List String
  joins : List String
  whereConds : List String
  orderBy : String
  groupBy : String
  having : List String
  limit : Int
  offset : Int
  parameters : List Value
deriving DecidableEq

/-- `Table` factory: limit and offset start at the `-1` "unset" sentinel,
everything else empty. -/
def Table (table : String) : QueryBuilder :=
  { table := table, columns := [], joins := [], whereConds := [],
    orderBy := "", groupBy := "", having := [], limit := -1, offset := -1,
    parameters := [] }

/-- `Select` appends columns (cumulative). -/
def QueryBuilder.Select (qb : QueryBuilder) (columns : List String) : QueryBuilder :=
  { qb with columns := qb.columns ++ columns }

/-- `Where` appends the condition verbatim and the bound values. -/
def QueryBuilder.Where (qb : QueryBuilder) (condition : String) (params : List Value) : QueryBuilder :=
  { qb with whereConds := qb.whereConds ++ [condition],
            parameters := qb.parameters ++ params }

/-- `WhereIn` synthesizes `column IN (?, ?, …)` with one placeholder and one
parameter per element of `values`. -/
def QueryBuilder.WhereIn (qb : QueryBuilder) (column : String) (values : List Value) : QueryBuilder :=
  { qb with
    whereConds := qb.whereConds ++
      [column ++ " IN (" ++ strJoin ", " (List.replicate values.length "?") ++ ")"],
    parameters := qb.parameters ++ values }

/-- `WhereNotIn`: as `WhereIn` with `NOT IN`. -/
def QueryBuilder.WhereNotIn (qb : QueryBuilder) (column : String) (values : List Value) : QueryBuilder :=
  { qb with
    whereConds := qb.whereConds ++
      [column ++ " NOT IN (" ++ strJoin ", " (List.replicate values.length "?") ++ ")"],
    parameters := qb.parameters ++ values }

/-- `WhereNull` appends `column IS NULL`, no parameter. -/
def QueryBuilder.WhereNull (qb : QueryBuilder) (column : String) : QueryBuilder :=
  { qb with whereConds := qb.whereConds ++ [column ++ " IS NULL"] }

/-- `OrWhere` prefixes the fragment with a literal `OR `. -/
def QueryBuilder.OrWhere (qb : QueryBuilder) (condition : String) (params : List Value) : QueryBuilder :=
  { qb with whereConds := qb.whereConds ++ ["OR " ++ condition],
            parameters := qb.parameters ++ params }

/-- `WhereLike` appends `column LIKE ?` and one parameter. -/
def QueryBuilder.WhereLike (qb : QueryBuilder) (column : String) (value : String) : QueryBuilder :=
  { qb with whereConds := qb.whereConds ++ [column ++ " LIKE ?"],
            parameters := qb.parameters ++ [Value.str value] }

/-- `WhereNotLike` appends `column NOT LIKE ?` and one parameter. -/
def QueryBuilder.WhereNotLike (qb : QueryBuilder) (column : String) (value : String) : QueryBuilder :=
  { qb with whereConds := qb.whereConds ++ [column ++ " NOT LIKE ?"],
            parameters := qb.parameters ++ [Value.str value] }

/-- `WhereBetween` appends `column BETWEEN ? AND ?` and the two bounds. -/
def QueryBuilder.WhereBetween (qb : QueryBuilder) (column : String) (start finish : Value) : QueryBuilder :=
  { qb with whereConds := qb.whereConds ++ [column ++ " BETWEEN ? AND ?"],
            parameters := qb.parameters ++ [start, finish] }

/-- `DateBetween`: identical shape to `WhereBetween`, string-typed bounds. -/
def QueryBuilder.DateBetween (qb : QueryBuilder) (column : String) (start finish : String) : QueryBuilder :=
  { qb with whereConds := qb.whereConds ++ [column ++ " BETWEEN ? AND ?"],
            parameters := qb.parameters ++ [Value.str start, Value.str finish] }

/-- `Join` appends `<kind> JOIN <table> ON <condition>`. -/
def QueryBuilder.Join (qb : QueryBuilder) (joinType tbl condition : String) : QueryBuilder :=
  { qb with joins := qb.joins ++ [joinType ++ " JOIN " ++ tbl ++ " ON " ++ condition] }

/-- `GroupBy` overwrites the single `groupBy` field (last call wins). -/
def QueryBuilder.GroupBy (qb : QueryBuilder) (columns : List String) : QueryBuilder :=
  { qb with groupBy := strJoin ", " columns }

/-- `Having` appends the fragment to `having` and the values to
`parameters` — same pattern as `Where`, but `Build` never renders
`having`. -/
def QueryBuilder.Having (qb : QueryBuilder) (condition : String) (params : List Value) : QueryBuilder :=
  { qb with having := qb.having ++ [condition],
            parameters := qb.parameters ++ params }

/-- `OrderBy` overwrites the single field. -/
def QueryBuilder.OrderBy (qb : QueryBuilder) (order : String) : QueryBuilder :=
  { qb with orderBy := order }

/-- `Limit` sets the sentinel-bearing field. -/
def QueryBuilder.Limit (qb : QueryBuilder) (limit : Int) : QueryBuilder :=
  { qb with limit := limit }

/-- `Offset` sets the sentinel-bearing field. -/
def QueryBuilder.Offset (qb : QueryBuilder) (offset : Int) : QueryBuilder :=
  { qb with offset := offset }

/-- `Build`: renders SELECT, FROM, JOIN, WHERE, ORDER BY, LIMIT, OFFSET in
that fixed order and returns the text with the accumulated parameters.
`groupBy` and `having` are never read. -/
def QueryBuilder.Build (qb : QueryBuilder) : String × List Value :=
  let q := if qb.columns.length > 0
    then "SELECT " ++ strJoin ", " qb.columns else "SELECT *"
  let q := q ++ " FROM " ++ qb.table
  let q := if qb.joins.length > 0 then q ++ " " ++ strJoin " " qb.joins else q
  let q := if qb.whereConds.length > 0
    then q ++ " WHERE " ++ strJoin " AND " qb.whereConds else q
  let q := if qb.orderBy ≠ "" then q ++ " ORDER BY " ++ qb.orderBy else q
  let q := if qb.limit ≥ 0 then q ++ " LIMIT " ++ toString qb.limit else q
  let q := if qb.offset ≥ 0 then q ++ " OFFSET " ++ toString qb.offset else q
  (q, qb.parameters)

/-- The `Build` method call in state-passing form: the Go body only reads
receiver fields and assigns none of them, so the receiver comes back
unchanged next to the rendered pair. -/
def QueryBuilder.BuildCall (qb : QueryBuilder) : QueryBuilder × (String × List Value) :=
  (qb, qb.Build)

/-- `BuildSelectQuery`: the variant renderer used by `Count`; stops after
the WHERE clause. -/
def QueryBuilder.BuildSelectQuery (qb : QueryBuilder) : String :=
  let q := if qb.columns.length > 0
    then "SELECT " ++ strJoin ", " qb.columns else "SELECT *"
  let q := q ++ " FROM " ++ qb.table
  let q := if qb.joins.length > 0 then q ++ " " ++ strJoin " " qb.joins else q
  let q := if qb.whereConds.length > 0
    then q ++ " WHERE " ++ strJoin " AND " qb.whereConds else q
  q

/-- `Count`: the SQL text and parameter list it hands to the execution
collaborator (`DBConnection.QueryRow(countQuery, params...)`). -/
def QueryBuilder.Count (qb : QueryBuilder) : String × List Value :=
  ("SELECT COUNT(*) FROM (" ++ qb.BuildSelectQuery ++ ") AS count_query",
   qb.parameters)

/-- `Update`: a record is modelled as an ordered association list (Go map
iteration order is unspecified; the claims do not depend on it).  Returns
the receiver (the Go body assigns none of its fields) and the SQL text and
parameters handed to `DBConnection.Exec`.  The `WHERE` keyword is appended
unconditionally, even when `whereConds` is empty. -/
def QueryBuilder.Update (qb : QueryBuilder) (data : List (String × Value)) :
    QueryBuilder × (String × List Value) :=
  let setClauses := data.map (fun kv => kv.1 ++ " = ?")
  let params := data.map (fun kv => kv.2)
  let query := "UPDATE " ++ qb.table ++ " SET " ++ strJoin "," setClauses ++
    " WHERE " ++ strJoin " AND " qb.whereConds
  (qb, (query, params))

/-- Go `row[column]`: a map lookup miss yields the zero interface value. -/
def mapGet (row : List (String × Value)) (column : String) : Value :=
  match row.find? (fun kv => kv.1 = column) with
  | some kv => kv.2
  | none => Value.nil

/-- `BulkInsert`: fails fast with the error `no data to insert` on an empty
record list (nothing is handed to the execution collaborator); otherwise
takes the column list from the first record and sends one placeholder group
per record.  Returns the receiver (the Go body assigns none of its fields)
and either the error or the statement sent. -/
def QueryBuilder.BulkInsert (qb : QueryBuilder) (data : List (List (String × Value))) :
    QueryBuilder × Except String (String × List Value) :=
  match data with
  | [] => (qb, Except.error "no data to insert")
  | first :: _ =>
    let columns := first.map (fun kv => kv.1)
    let values := data.map (fun row =>
      "(" ++ strJoin ","
        ((List.range row.length).map (fun i => if i < columns.length then "?" else ""))
        ++ ")")
    let params := (data.map (fun row => columns.map (mapGet row))).flatten
    let query := "INSERT INTO " ++ qb.table ++ " (" ++ strJoin "," columns ++
      ") VALUES " ++ strJoin "," values
    (qb, Except.ok (query, params))

/-- The predicate-derived portion of the rendered text: the WHERE fragments
AND-joined exactly as `Build` joins them. -/
def predPortion (qb : QueryBuilder) : String := strJoin " AND " qb.whereConds

/-- One call from the predicate-adding family named by Invariant I1
(excluding `Having`, whose fragments `Build` never renders). -/
inductive PredOp where
  | Where (condition : String) (params : List Value)
  | WhereIn (column : String) (values : List Value)
  | WhereNotIn (column : String) (values : List Value)
  | WhereLike (column : String) (value : String)
  | WhereNotLike (column : String) (value : String)
  | WhereBetween (column : String) (start finish : Value)
  | DateBetween (column : String) (start finish : String)
deriving DecidableEq

/-- Run one predicate-adding call on the builder. -/
def applyPred (qb : QueryBuilder) : PredOp → QueryBuilder
  | .Where c ps => qb.Where c ps
  | .WhereIn col vs => qb.WhereIn col vs
  | .WhereNotIn col vs => qb.WhereNotIn col vs
  | .WhereLike col v => qb.WhereLike col v
  | .WhereNotLike col v => qb.WhereNotLike col v
  | .WhereBetween col a b => qb.WhereBetween col a b
  | .DateBetween col a b => qb.DateBetween col a b

/-- Run a call sequence left to right. -/
def applyPreds (qb : QueryBuilder) (ops : List PredOp) : QueryBuilder :=
  ops.foldl applyPred qb

/-- The WHERE fragment a predicate call appends. -/
def fragOf : PredOp → String
  | .Where c _ => c
  | .WhereIn col vs =>
      col ++ " IN (" ++ strJoin ", " (List.replicate vs.length "?") ++ ")"
  | .WhereNotIn col vs =>
      col ++ " NOT IN (" ++ strJoin ", " (List.replicate vs.length "?") ++ ")"
  | .WhereLike col _ => col ++ " LIKE ?"
  | .WhereNotLike col _ => col ++ " NOT LIKE ?"
  | .WhereBetween col _ _ => col ++ " BETWEEN ? AND ?"
  | .DateBetween col _ _ => col ++ " BETWEEN ? AND ?"

/-- The parameters a predicate call appends. -/
def paramsOf : PredOp → List Value
  | .Where _ ps => ps
  | .WhereIn _ vs => vs
  | .WhereNotIn _ vs => vs
  | .WhereLike _ v => [Value.str v]
  | .WhereNotLike _ v => [Value.str v]
  | .WhereBetween _ a b => [a, b]
  | .DateBetween _ a b => [Value.str a, Value.str b]

/-- A call is balanced when its caller-supplied text introduces exactly the
placeholders its values bind: a `Where` condition carries one `?` per
value, and a column argument smuggles no `?` of its own. -/
def balanced : PredOp → Bool
  | .Where c ps => countQ c = ps.length
  | .WhereIn col _ => countQ col = 0
  | .WhereNotIn col _ => countQ col = 0
  | .WhereLike col _ => countQ col = 0
  | .WhereNotLike col _ => countQ col = 0
  | .WhereBetween col _ _ => countQ col = 0
  | .DateBetween col _ _ => countQ col = 0

theorem countQ_append (a b : String) : countQ (a ++ b) = countQ a + countQ b := by
  simp [countQ, String.data_append, List.count_append]

theorem countQ_strJoin (sep : String) (hsep : countQ sep = 0) :
    ∀ l : List String, countQ (strJoin sep l) = (l.map countQ).sum
  | [] => by simp [strJoin, countQ]
  | [x] => by simp [strJoin]
  | x :: y :: ys => by
    have ih := countQ_strJoin sep hsep (y :: ys)
    simp only [strJoin, countQ_append, ih, List.map_cons, List.sum_cons, hsep]
    ring

theorem countQ_placeholders (n : Nat) :
    countQ (strJoin ", " (List.replicate n "?")) = n := by
  have h1 : countQ "?" = 1 := by decide
  rw [countQ_strJoin ", " (by decide)]
  simp [List.map_replicate, List.sum_replicate, h1]

theorem applyPred_spec (qb : QueryBuilder) (op : PredOp) :
    (applyPred qb op).whereConds = qb.whereConds ++ [fragOf op] ∧
    (applyPred qb op).parameters = qb.parameters ++ paramsOf op := by
  cases op <;>
    simp [applyPred, fragOf, paramsOf, QueryBuilder.Where, QueryBuilder.WhereIn,
      QueryBuilder.WhereNotIn, QueryBuilder.WhereLike, QueryBuilder.WhereNotLike,
      QueryBuilder.WhereBetween, QueryBuilder.DateBetween]

theorem applyPreds_spec (ops : List PredOp) : ∀ qb : QueryBuilder,
    (applyPreds qb ops).whereConds = qb.whereConds ++ ops.map fragOf ∧
    (applyPreds qb ops).parameters = qb.parameters ++ (ops.map paramsOf).flatten := by
  induction ops with
  | nil => intro qb; simp [applyPreds]
  | cons op ops ih =>
    intro qb
    obtain ⟨h1, h2⟩ := applyPred_spec qb op
    obtain ⟨ih1, ih2⟩ := ih (applyPred qb op)
    have e : applyPreds qb (op :: ops) = applyPreds (applyPred qb op) ops := rfl
    constructor
    · rw [e, ih1, h1]; simp
    · rw [e, ih2, h2]; simp

theorem frag_parity (op : PredOp) (h : balanced op = true) :
    countQ (fragOf op) = (paramsOf op).length := by
  cases op with
  | Where c ps =>
    simp [balanced] at h
    simpa [fragOf, paramsOf] using h
  | WhereIn col vs =>
    simp [balanced] at h
    simp [fragOf, paramsOf, countQ_append, countQ_placeholders, h,
      show countQ " IN (" = 0 from by decide, show countQ ")" = 0 from by decide]
  | WhereNotIn col vs =>
    simp [balanced] at h
    simp [fragOf, paramsOf, countQ_append, countQ_placeholders, h,
      show countQ " NOT IN (" = 0 from by decide, show countQ ")" = 0 from by decide]
  | WhereLike col v =>
    simp [balanced] at h
    simp [fragOf, paramsOf, countQ_append, h,
      show countQ " LIKE ?" = 1 from by decide]
  | WhereNotLike col v =>
    simp [balanced] at h
    simp [fragOf, paramsOf, countQ_append, h,
      show countQ " NOT LIKE ?" = 1 from by decide]
  | WhereBetween col a b =>
    simp [balanced] at h
    simp [fragOf, paramsOf, countQ_append, h,
      show countQ " BETWEEN ? AND ?" = 2 from by decide]
  | DateBetween col a b =>
    simp [balanced] at h
    simp [fragOf, paramsOf, countQ_append, h,
      show countQ " BETWEEN ? AND ?" = 2 from by decide]

/-- C1 (amended).  For every Statement reached from a fresh builder by a
sequence of where/whereIn/whereNotIn/whereLike/whereNotLike/whereBetween/
dateBetween calls whose caller-supplied texts are balanced (each `where`
condition holds exactly one `?` per bound value, columns hold no `?`), the
number of `?` placeholders in the predicate-derived portion of the text
rendered by `Build` equals the number of parameters those calls
contributed, and fragments and parameters line up call by call.  `Having`
is excluded: it appends parameters whose fragments `Build` never renders
(see the counterexample). -/
theorem placeholder_parity_of_balanced_predicates (t : String) (ops : List PredOp)
    (h : ∀ op ∈ ops, balanced op = true) :
    countQ (predPortion (applyPreds (Table t) ops)) =
      (applyPreds (Table t) ops).parameters.length ∧
    (applyPreds (Table t) ops).whereConds = ops.map fragOf ∧
    (applyPreds (Table t) ops).parameters = (ops.map paramsOf).flatten := by
  obtain ⟨hw, hp⟩ := applyPreds_spec ops (Table t)
  rw [show (Table t).whereConds = [] from rfl, List.nil_append] at hw
  rw [show (Table t).parameters = [] from rfl, List.nil_append] at hp
  refine ⟨?_, hw, hp⟩
  rw [predPortion, hw, hp, countQ_strJoin " AND " (by decide),
    List.length_flatten, List.map_map, List.map_map]
  exact congrArg List.sum
    (List.map_congr_left (fun op hop => frag_parity op (h op hop)))

/-- Witness for C1 at `where("age > ?", 18); whereIn("id", [1,2])`. -/
theorem placeholder_parity_witness :
    (∀ op ∈ ([PredOp.Where "age > ?" [Value.int 18],
               PredOp.WhereIn "id" [Value.int 1, Value.int 2]] : List PredOp),
      balanced op = true) ∧
    countQ (predPortion (applyPreds (Table "t")
        [PredOp.Where "age > ?" [Value.int 18],
         PredOp.WhereIn "id" [Value.int 1, Value.int 2]])) =
      (applyPreds (Table "t")
        [PredOp.Where "age > ?" [Value.int 18],
         PredOp.WhereIn "id" [Value.int 1, Value.int 2]]).parameters.length :=
  ⟨by decide,
   (placeholder_parity_of_balanced_predicates "t"
      [PredOp.Where "age > ?" [Value.int 18],
       PredOp.WhereIn "id" [Value.int 1, Value.int 2]] (by decide)).1⟩

/-- C1 counterexample: after `having("x > ?", 5)` on a fresh builder the
rendered text `SELECT * FROM t` holds no `?` at all, yet the call
contributed one parameter — placeholder parity fails as soon as `having`
joins the call sequence, because `Build` never renders having
fragments. -/
theorem having_param_without_placeholder :
    countQ (((Table "t").Having "x > ?" [Value.int 5]).Build.1) = 0 ∧
    ((Table "t").Having "x > ?" [Value.int 5]).parameters.length = 1 ∧
    ¬ (countQ (predPortion ((Table "t").Having "x > ?" [Value.int 5])) =
        ((Table "t").Having "x > ?" [Value.int 5]).parameters.length) := by
  decide

/-- C2 (defect in the code): `Update` on a builder with zero configured
predicates does not fail — it renders and sends
`UPDATE users SET name = ? WHERE `, the `WHERE` keyword followed by an
empty condition, exactly what the claim says must not happen. -/
theorem update_no_predicate_renders_dangling_where :
    (Table "users").whereConds = [] ∧
    ((Table "users").Update [("name", Value.str "x")]).2.1 =
      "UPDATE users SET name = ? WHERE " := by
  decide

/-- C3: the text rendered by `Build` never carries a GROUP BY or HAVING
clause: it is unchanged by the `groupBy` and `having` fields, however they
were set; concretely, `groupBy("a","b"); having("COUNT(x) > ?", 1)` on
table `t` still renders plain `SELECT * FROM t`. -/
theorem build_ignores_groupBy_having :
    ∀ (qb : QueryBuilder) (g : String) (h : List String),
      ({ qb with groupBy := g, having := h } : QueryBuilder).Build.1 = qb.Build.1
      ∧ (((Table "t").GroupBy ["a", "b"]).Having "COUNT(x) > ?" [Value.int 1]).Build.1
          = "SELECT * FROM t" :=
  fun _ _ _ => ⟨rfl, by decide⟩

theorem buildSelectQuery_eq_build_stripped (qb : QueryBuilder) :
    qb.BuildSelectQuery =
      ({ qb with orderBy := "", limit := -1, offset := -1 } : QueryBuilder).Build.1 := by
  simp [QueryBuilder.Build, QueryBuilder.BuildSelectQuery]

/-- C4: the SQL text `Count` hands to the execution collaborator is
`SELECT COUNT(*) FROM (inner) AS count_query`, where `inner` is the
rendering of the same builder with ORDER BY, LIMIT and OFFSET absent (the
SELECT/FROM/JOIN/WHERE-only variant), and the parameters handed along are
exactly the accumulated `parameters`. -/
theorem count_wraps_stripped_select :
    ∀ qb : QueryBuilder,
      qb.Count.1 = "SELECT COUNT(*) FROM (" ++
          ({ qb with orderBy := "", limit := -1, offset := -1 } : QueryBuilder).Build.1
          ++ ") AS count_query"
      ∧ qb.Count.2 = qb.parameters := by
  intro qb
  constructor
  · show "SELECT COUNT(*) FROM (" ++ qb.BuildSelectQuery ++ ") AS count_query" = _
    rw [buildSelectQuery_eq_build_stripped]
  · rfl

/-- C5: `Build` is pure and deterministic — the method call leaves every
field of the receiver unchanged, and a second call on the state it leaves
behind returns an identical text and parameter pair. -/
theorem build_is_pure :
    ∀ qb : QueryBuilder,
      qb.BuildCall.1 = qb ∧ (qb.BuildCall.1).BuildCall.2 = qb.BuildCall.2 :=
  fun _ => ⟨rfl, rfl⟩

/-- C6: clause-order invariance — `select(a); where(b); join(c)` and
`join(c); where(b); select(a)` with the same arguments build to identical
text and identical parameters, from any starting state. -/
theorem clause_order_invariance :
    ∀ (qb : QueryBuilder) (a : List String) (wc : String) (wp : List Value)
      (jk jt jc : String),
      (((qb.Select a).Where wc wp).Join jk jt jc).Build =
        (((qb.Join jk jt jc).Where wc wp).Select a).Build :=
  fun _ _ _ _ _ _ _ => rfl

/-- C7: `where("age > ?",18); orderBy("id DESC"); limit(10); offset(5)` on a
fresh builder for `users` renders exactly the expected text with parameter
list `[18]`; a fresh builder renders `SELECT *` with no further clauses; and
negative limit and offset are not rendered at all. -/
theorem where_order_limit_offset_composition :
    ∀ (l o : Int), l < 0 → o < 0 →
      (((((Table "users").Where "age > ?" [Value.int 18]).OrderBy "id DESC").Limit
          10).Offset 5).Build =
        ("SELECT * FROM users WHERE age > ? ORDER BY id DESC LIMIT 10 OFFSET 5",
         [Value.int 18])
      ∧ (Table "users").Build = ("SELECT * FROM users", [])
      ∧ (((Table "users").Limit l).Offset o).Build = ("SELECT * FROM users", []) := by
  intro l o hl ho
  refine ⟨by decide, by decide, ?_⟩
  simp [QueryBuilder.Build, QueryBuilder.Limit, QueryBuilder.Offset, Table,
    not_le.mpr hl, not_le.mpr ho]

/-- Witness for C7 at limit −3, offset −7. -/
theorem where_order_limit_offset_composition_witness :
    ((-3 : Int) < 0 ∧ (-7 : Int) < 0) ∧
    (((Table "users").Limit (-3)).Offset (-7)).Build = ("SELECT * FROM users", []) :=
  ⟨⟨by decide, by decide⟩,
   (where_order_limit_offset_composition (-3) (-7) (by decide) (by decide)).2.2⟩

/-- C8: `whereIn(column, values)` appends the single fragment
`column IN (…)` holding one `?` per element joined by `, `, and appends one
parameter per element in order; concretely `whereIn("id",[1,2,3])` on table
`t` builds to `SELECT * FROM t WHERE id IN (?, ?, ?)` with parameters
`[1,2,3]`. -/
theorem whereIn_expansion :
    ∀ (qb : QueryBuilder) (col : String) (vs : List Value),
      (qb.WhereIn col vs).whereConds = qb.whereConds ++
        [col ++ " IN (" ++ strJoin ", " (List.replicate vs.length "?") ++ ")"]
      ∧ (qb.WhereIn col vs).parameters = qb.parameters ++ vs
      ∧ countQ (strJoin ", " (List.replicate vs.length "?")) = vs.length
      ∧ ((Table "t").WhereIn "id" [Value.int 1, Value.int 2, Value.int 3]).Build =
          ("SELECT * FROM t WHERE id IN (?, ?, ?)",
           [Value.int 1, Value.int 2, Value.int 3]) :=
  fun _ _ vs => ⟨rfl, rfl, countQ_placeholders vs.length, by decide⟩

/-- C9: `BulkInsert` with an empty record list fails fast with the
configuration error `no data to insert`: nothing is handed to the execution
collaborator and the builder state is returned unchanged. -/
theorem bulkInsert_empty_fails :
    ∀ qb : QueryBuilder,
      qb.BulkInsert [] = (qb, Except.error "no data to insert") :=
  fun _ => rfl

/-- C10: whenever `orderBy` is empty and `limit` and `offset` both hold the
`-1` sentinel, `Build`'s text coincides with the variant renderer
`BuildSelectQuery` used by `Count`. -/
theorem build_eq_buildSelectQuery_when_unset :
    ∀ qb : QueryBuilder, qb.orderBy = "" → qb.limit = -1 → qb.offset = -1 →
      qb.Build.1 = qb.BuildSelectQuery := by
  intro qb ho hl hof
  have e : ({ qb with orderBy := "", limit := -1, offset := -1 } : QueryBuilder) = qb := by
    cases qb
    simp_all
  rw [buildSelectQuery_eq_build_stripped, e]

/-- Witness for C10 on `users` with one predicate. -/
theorem build_eq_buildSelectQuery_witness :
    ((Table "users").Where "a > ?" [Value.int 1]).Build.1 =
      ((Table "users").Where "a > ?" [Value.int 1]).BuildSelectQuery :=
  build_eq_buildSelectQuery_when_unset _ rfl rfl rfl
